import Mathlib

/-!
Verification development for the `aiblogs` repository.

The TypeScript sources are shallowly embedded as Lean definitions:
asynchronous operations become explicit oracle functions (one call per
invocation index), JavaScript errors become an explicit record type,
timed waits are recorded in a trace rather than performed, and external
JavaScript builtins (`encodeURIComponent`, `JSON.stringify`,
`JSON.parse`, `Math.random`, `Date.now`) are passed in as function
parameters, since they are stdlib collaborators, not repository code.
-/

namespace Aiblogs

/-! ## Retry policy (src/lib/geminiService.ts, `retryWithBackoff`) -/

/-- A JavaScript error value as inspected by `retryWithBackoff`:
`error?.status`, `error?.response?.status`, `error?.code` and
`error?.message` are each possibly absent. -/
structure JsError where
  status : Option Nat
  responseStatus : Option Nat
  code : Option Nat
  message : Option String
deriving DecidableEq

/-- JavaScript `a || b` on optional numbers: `a` unless `a` is falsy
(absent or `0`). Mirrors `error?.status || error?.response?.status ||
error?.code`. -/
def jsOrNum (a b : Option Nat) : Option Nat :=
  match a with
  | some n => if n = 0 then b else some n
  | none => b

/-- `pat` occurs as a contiguous run somewhere in `s`. -/
def occursIn (pat : List Char) : List Char → Bool
  | [] => pat.isEmpty
  | c :: tail => pat.isPrefixOf (c :: tail) || occursIn pat tail

/-- `s.includes(pat)`: substring test. -/
def containsSubstr (s pat : String) : Bool :=
  occursIn pat.data s.data

/-- The transient-error classification of `retryWithBackoff`:
status 503, status 429, or a message containing "overloaded". -/
def isTransient (e : JsError) : Bool :=
  let status := jsOrNum e.status (jsOrNum e.responseStatus e.code)
  status == some 503 || status == some 429 ||
    (e.message.map (fun m => containsSubstr m "overloaded")).getD false

/-- Result of one invocation of the wrapped async operation `fn`. -/
inductive Outcome (α : Type) where
  | ok (v : α)
  | err (e : JsError)
deriving DecidableEq

/-- What a run of `retryWithBackoff` did: the value returned or error
thrown, the number of invocations of `fn`, and the list of waits
(in ms, in order) performed between invocations. -/
structure RetryTrace (α : Type) where
  result : Except JsError α
  attempts : Nat
  delays : List Nat

/-- Shallow embedding of `retryWithBackoff(fn, retries, delay)`.
`fn` is indexed by invocation number (the JS closure may behave
differently on each call). The source throws when
`retries === 0 || !isTransient(error)`; otherwise it waits `delay`,
then recurses with `retries - 1` and `delay * 2`. The two throwing
cases are split across the `0` and `r + 1` patterns below. -/
def retryWithBackoff {α : Type} (fn : Nat → Outcome α) :
    Nat → Nat → Nat → RetryTrace α
  | retries, delay, idx =>
    match fn idx, retries with
    | Outcome.ok v, _ => ⟨Except.ok v, 1, []⟩
    | Outcome.err e, 0 => ⟨Except.error e, 1, []⟩
    | Outcome.err e, r + 1 =>
      if isTransient e then
        let t := retryWithBackoff fn r (delay * 2) (idx + 1)
        ⟨t.result, t.attempts + 1, delay :: t.delays⟩
      else ⟨Except.error e, 1, []⟩

theorem retryWithBackoff_ok {α : Type} (fn : Nat → Outcome α) (v : α)
    (retries delay idx : Nat) (h : fn idx = Outcome.ok v) :
    retryWithBackoff fn retries delay idx = ⟨Except.ok v, 1, []⟩ := by
  cases retries <;> simp [retryWithBackoff, h]

theorem retryWithBackoff_err_stop {α : Type} (fn : Nat → Outcome α)
    (e : JsError) (retries delay idx : Nat) (h : fn idx = Outcome.err e)
    (ht : isTransient e = false) :
    retryWithBackoff fn retries delay idx = ⟨Except.error e, 1, []⟩ := by
  cases retries <;> simp [retryWithBackoff, h, ht]

theorem retryWithBackoff_err_retry {α : Type} (fn : Nat → Outcome α)
    (e : JsError) (r delay idx : Nat) (h : fn idx = Outcome.err e)
    (ht : isTransient e = true) :
    retryWithBackoff fn (r + 1) delay idx =
      ⟨(retryWithBackoff fn r (delay * 2) (idx + 1)).result,
       (retryWithBackoff fn r (delay * 2) (idx + 1)).attempts + 1,
       delay :: (retryWithBackoff fn r (delay * 2) (idx + 1)).delays⟩ := by
  simp [retryWithBackoff, h, ht]

/-- When every invocation fails transiently, the trace makes
`retries + 1` attempts and waits `delay * 2 ^ n` before the
`(n+1)`-st retry. -/
theorem retryWithBackoff_all_transient {α : Type} (fn : Nat → Outcome α)
    (retries delay idx : Nat)
    (h : ∀ i, ∃ e, fn i = Outcome.err e ∧ isTransient e = true) :
    (retryWithBackoff fn retries delay idx).attempts = retries + 1 ∧
    (retryWithBackoff fn retries delay idx).delays =
      (List.range retries).map (fun n => delay * 2 ^ n) := by
  induction retries generalizing delay idx with
  | zero =>
    obtain ⟨e, he, _⟩ := h idx
    simp [retryWithBackoff, he]
  | succ r ih =>
    obtain ⟨e, he, ht⟩ := h idx
    obtain ⟨ih1, ih2⟩ := ih (delay * 2) (idx + 1)
    rw [retryWithBackoff_err_retry fn e r delay idx he ht]
    constructor
    · simp [ih1]
    · simp only [ih2, List.range_succ_eq_map, List.map_cons, List.map_map,
        pow_zero, mul_one]
      congr 1
      apply List.map_congr_left
      intro n _
      simp only [Function.comp_apply, pow_succ]
      ring

/-- When every invocation fails, the run ends in a thrown error. -/
theorem retryWithBackoff_all_err {α : Type} (fn : Nat → Outcome α)
    (retries delay idx : Nat)
    (h : ∀ i, ∃ e, fn i = Outcome.err e) :
    ∃ e, (retryWithBackoff fn retries delay idx).result = Except.error e := by
  induction retries generalizing delay idx with
  | zero =>
    obtain ⟨e, he⟩ := h idx
    exact ⟨e, by simp [retryWithBackoff, he]⟩
  | succ r ih =>
    obtain ⟨e, he⟩ := h idx
    cases ht : isTransient e with
    | false => exact ⟨e, by rw [retryWithBackoff_err_stop fn e _ delay idx he ht]⟩
    | true =>
      obtain ⟨f, hf⟩ := ih (delay * 2) (idx + 1)
      exact ⟨f, by rw [retryWithBackoff_err_retry fn e r delay idx he ht]; exact hf⟩

/-- C1: on persistent transient failure the operation is attempted
`retries + 1` times with delays `initialDelay * 2 ^ (n - 1)` before the
n-th retry; with the default configuration (3 retries, 2000 ms) the
waits are 2000 ms, 4000 ms and 8000 ms. -/
theorem retry_policy_transient_attempts_and_delays {α : Type}
    (fn : Nat → Outcome α) (retries delay idx : Nat)
    (h : ∀ i, ∃ e, fn i = Outcome.err e ∧ isTransient e = true) :
    (retryWithBackoff fn retries delay idx).attempts = retries + 1 ∧
    (retryWithBackoff fn retries delay idx).delays =
      (List.range retries).map (fun n => delay * 2 ^ n) ∧
    (retryWithBackoff fn 3 2000 0).attempts = 3 + 1 ∧
    (retryWithBackoff fn 3 2000 0).delays = [2000, 4000, 8000] := by
  obtain ⟨h1, h2⟩ := retryWithBackoff_all_transient fn retries delay idx h
  obtain ⟨h3, h4⟩ := retryWithBackoff_all_transient fn 3 2000 0 h
  refine ⟨h1, h2, h3, ?_⟩
  rw [h4]
  decide

/-- A concrete run for C1: an operation that always fails with
status 503 is attempted 4 times under the defaults, with waits
2000, 4000, 8000. -/
theorem retry_policy_transient_attempts_and_delays_witness :
    (retryWithBackoff (fun _ => Outcome.err (α := Nat) ⟨some 503, none, none, none⟩)
        3 2000 0).attempts = 3 + 1 ∧
    (retryWithBackoff (fun _ => Outcome.err (α := Nat) ⟨some 503, none, none, none⟩)
        3 2000 0).delays = [2000, 4000, 8000] := by
  have := retry_policy_transient_attempts_and_delays
    (fun _ => Outcome.err (α := Nat) ⟨some 503, none, none, none⟩) 3 2000 0
    (fun _ => ⟨⟨some 503, none, none, none⟩, rfl, by decide⟩)
  exact ⟨this.1, this.2.2.2⟩

/-- C2: a permanent (non-transient) failure on the first invocation is
rethrown unchanged with no wait and no further attempt. -/
theorem retry_policy_permanent_propagates {α : Type} (fn : Nat → Outcome α)
    (e : JsError) (retries delay idx : Nat)
    (h : fn idx = Outcome.err e) (ht : isTransient e = false) :
    retryWithBackoff fn retries delay idx = ⟨Except.error e, 1, []⟩ := by
  exact retryWithBackoff_err_stop fn e retries delay idx h ht

/-- A concrete run for C2: a 404 error is propagated unchanged after a
single attempt, with no waits. -/
theorem retry_policy_permanent_propagates_witness :
    retryWithBackoff (fun _ => Outcome.err (α := Nat) ⟨some 404, none, none, some "not found"⟩)
        3 2000 0 =
      ⟨Except.error ⟨some 404, none, none, some "not found"⟩, 1, []⟩ := by
  exact retry_policy_permanent_propagates
    (fun _ => Outcome.err (α := Nat) ⟨some 404, none, none, some "not found"⟩)
    ⟨some 404, none, none, some "not found"⟩ 3 2000 0 rfl (by decide)

/-- C9: on success the decorator returns exactly the operation's value,
with one attempt and no waits — failures alone influence its behaviour. -/
theorem retry_policy_transparent_on_success {α : Type} (fn : Nat → Outcome α)
    (v : α) (retries delay idx : Nat) (h : fn idx = Outcome.ok v) :
    retryWithBackoff fn retries delay idx = ⟨Except.ok v, 1, []⟩ := by
  exact retryWithBackoff_ok fn v retries delay idx h

/-- A concrete run for C9: a successful operation's value 42 is returned
unchanged. -/
theorem retry_policy_transparent_on_success_witness :
    retryWithBackoff (fun _ => Outcome.ok 42) 3 2000 0 =
      ⟨Except.ok 42, 1, []⟩ := by
  exact retry_policy_transparent_on_success (fun _ => Outcome.ok 42) 42 3 2000 0 rfl

/-! ## Data model (types.ts is referenced by the sources; the `BlogPost`
shape below follows its uses in src/lib/geminiService.ts,
src/lib/schemaGenerator.ts and src/app/api/posts/route.ts) -/

/-- One "People Also Ask" question/answer pair (`aeoQuestions` entries). -/
structure QA where
  question : String
  answer : String
deriving DecidableEq

/-- The persisted blog post entity. Fields the code reads through
JavaScript truthiness guards (`commercialIntent`, `isHowTo`, `steps`,
`aeoQuestions`, `scheduledDate`) are optional, matching their optional
declarations in the TypeScript type. -/
structure BlogPost where
  id : String
  title : String
  content : String
  excerpt : String
  keywords : List String
  category : String
  readTime : String
  dateCreated : String
  status : String
  geoTargeting : String
  aeoQuestions : Option (List QA)
  seoScore : Nat
  commercialIntent : Option Bool
  isHowTo : Option Bool
  steps : Option (List String)
  slug : String
  coverImage : String
  scheduledDate : Option String
deriving DecidableEq

/-- A JSON value, for the schema.org JSON-LD fragments. An object keeps
its fields in insertion order, as JavaScript object literals do. -/
inductive Json where
  | str (s : String)
  | num (n : Nat)
  | arr (elements : List Json)
  | obj (fields : List (String × Json))

/-! ## Structured-data aggregator (src/lib/schemaGenerator.ts) -/

/-- `generateBlogPostingSchema(post)`; `now` stands for
`new Date().toISOString()` read at call time. -/
def generateBlogPostingSchema (now : String) (post : BlogPost) : Json :=
  Json.obj [
    ("@type", Json.str "BlogPosting"),
    ("headline", Json.str post.title),
    ("description", Json.str post.excerpt),
    ("image", Json.str post.coverImage),
    ("author", Json.obj [
      ("@type", Json.str "Person"),
      ("name", Json.str "AutoBlog AI"),
      ("jobTitle", Json.str "AI Content Creator"),
      ("worksFor", Json.obj [
        ("@type", Json.str "Organization"),
        ("name", Json.str "AutoBlog")])]),
    ("publisher", Json.obj [
      ("@type", Json.str "Organization"),
      ("name", Json.str "AutoBlog"),
      ("logo", Json.obj [
        ("@type", Json.str "ImageObject"),
        ("url", Json.str "https://smmsurge.com/logo.png")])]),
    ("datePublished", Json.str post.dateCreated),
    ("dateModified", Json.str now),
    ("mainEntityOfPage", Json.obj [
      ("@type", Json.str "WebPage"),
      ("@id", Json.str ("https://smmsurge.com/blog/" ++ post.slug))])]

/-- `generateOrganizationSchema()`. -/
def generateOrganizationSchema : Json :=
  Json.obj [
    ("@type", Json.str "Organization"),
    ("name", Json.str "AutoBlog AI"),
    ("url", Json.str "https://smmsurge.com"),
    ("logo", Json.str "https://smmsurge.com/logo.png"),
    ("sameAs", Json.arr [
      Json.str "https://twitter.com/autoblogai",
      Json.str "https://facebook.com/autoblogai",
      Json.str "https://linkedin.com/company/autoblogai"]),
    ("contactPoint", Json.obj [
      ("@type", Json.str "ContactPoint"),
      ("telephone", Json.str "+1-000-000-0000"),
      ("contactType", Json.str "customer service")])]

/-- ASCII whitespace, the characters `\s` matches in the slug regexes. -/
def isSpaceChar (c : Char) : Bool :=
  c == ' ' || c == '\t' || c == '\n' || c == '\r'

/-- Replace every maximal run of characters satisfying `p` by the single
character `r` (the effect of `.replace(/[…]+/g, r)`). -/
def squashRuns (p : Char → Bool) (r : Char) : List Char → List Char
  | [] => []
  | [c] => if p c then [r] else [c]
  | c :: d :: cs =>
    if p c then
      if p d then squashRuns p r (d :: cs)
      else r :: squashRuns p r (d :: cs)
    else c :: squashRuns p r (d :: cs)

/-- `post.category.toLowerCase().replace(/\s+/g, '-')` of
`generateBreadcrumbSchema`. -/
def categorySlug (category : String) : String :=
  String.mk (squashRuns isSpaceChar '-' (category.data.map Char.toLower))

/-- `generateBreadcrumbSchema(post)`. -/
def generateBreadcrumbSchema (post : BlogPost) : Json :=
  Json.obj [
    ("@type", Json.str "BreadcrumbList"),
    ("itemListElement", Json.arr [
      Json.obj [
        ("@type", Json.str "ListItem"),
        ("position", Json.num 1),
        ("name", Json.str "Home"),
        ("item", Json.str "https://smmsurge.com")],
      Json.obj [
        ("@type", Json.str "ListItem"),
        ("position", Json.num 2),
        ("name", Json.str "Blog"),
        ("item", Json.str "https://smmsurge.com/blog")],
      Json.obj [
        ("@type", Json.str "ListItem"),
        ("position", Json.num 3),
        ("name", Json.str post.category),
        ("item", Json.str ("https://smmsurge.com/blog/category/" ++ categorySlug post.category))],
      Json.obj [
        ("@type", Json.str "ListItem"),
        ("position", Json.num 4),
        ("name", Json.str post.title),
        ("item", Json.str ("https://smmsurge.com/blog/" ++ post.slug))]])]

/-- `generateFAQSchema(post)`: `null` (here `none`) when `aeoQuestions`
is absent or empty. -/
def generateFAQSchema (post : BlogPost) : Option Json :=
  match post.aeoQuestions with
  | none => none
  | some qs =>
    if qs.length = 0 then none
    else some (Json.obj [
      ("@type", Json.str "FAQPage"),
      ("mainEntity", Json.arr (qs.map (fun q => Json.obj [
        ("@type", Json.str "Question"),
        ("name", Json.str q.question),
        ("acceptedAnswer", Json.obj [
          ("@type", Json.str "Answer"),
          ("text", Json.str q.answer)])])))])

/-- `generateHowToSchema(post)`: `null` unless `isHowTo` is truthy and
`steps` has at least 3 entries (an absent `steps` is falsy, an empty
array is truthy but fails the length test). -/
def generateHowToSchema (post : BlogPost) : Option Json :=
  if post.isHowTo.getD false = false then none
  else match post.steps with
    | none => none
    | some steps =>
      if steps.length < 3 then none
      else some (Json.obj [
        ("@type", Json.str "HowTo"),
        ("name", Json.str post.title),
        ("description", Json.str post.excerpt),
        ("step", Json.arr (steps.enum.map (fun p => Json.obj [
          ("@type", Json.str "HowToStep"),
          ("position", Json.num (p.1 + 1)),
          ("text", Json.str p.2),
          ("name", Json.str ("Step " ++ toString (p.1 + 1)))])))])

/-- `generateServiceSchema(post)`: `null` unless `commercialIntent` is
truthy. -/
def generateServiceSchema (post : BlogPost) : Option Json :=
  if post.commercialIntent.getD false = false then none
  else some (Json.obj [
    ("@type", Json.str "Service"),
    ("name", Json.str post.title),
    ("provider", Json.obj [
      ("@type", Json.str "Organization"),
      ("name", Json.str "AutoBlog AI")]),
    ("areaServed", Json.str (if post.geoTargeting = "" then "Global" else post.geoTargeting)),
    ("hasOfferCatalog", Json.obj [
      ("@type", Json.str "OfferCatalog"),
      ("name", Json.str "Social Media Services"),
      ("itemListElement", Json.arr [
        Json.obj [
          ("@type", Json.str "Offer"),
          ("itemOffered", Json.obj [
            ("@type", Json.str "Service"),
            ("name", Json.str post.title)]),
          ("price", Json.str "1.00"),
          ("priceCurrency", Json.str "USD")]])])])

/-- The spread `{ "@context": "https://schema.org", ...fragment }`. -/
def withContext (j : Json) : Json :=
  match j with
  | Json.obj fs => Json.obj (("@context", Json.str "https://schema.org") :: fs)
  | j => j

/-- `aggregateSchemas(post)`: the three unconditional fragments, then
FAQPage, HowTo and Service pushed in that order when present. -/
def aggregateSchemas (now : String) (post : BlogPost) : List Json :=
  [withContext (generateBlogPostingSchema now post),
   withContext generateOrganizationSchema,
   withContext (generateBreadcrumbSchema post)]
  ++ (match generateFAQSchema post with
      | some faq => [withContext faq]
      | none => [])
  ++ (match generateHowToSchema post with
      | some howTo => [withContext howTo]
      | none => [])
  ++ (match generateServiceSchema post with
      | some service => [withContext service]
      | none => [])

/-- `getCombinedSchemaHtml(post)`; `stringify` stands for the builtin
`JSON.stringify(·, null, 2)`. -/
def getCombinedSchemaHtml (stringify : Json → String) (now : String)
    (post : BlogPost) : String :=
  String.intercalate "\n" ((aggregateSchemas now post).map (fun schema =>
    "<script type=\x22application/ld+json\x22>" ++ stringify schema ++ "</script>"))

/-- The `"@type"` field of a JSON-LD fragment. -/
def typeOf (j : Json) : Option String :=
  match j with
  | Json.obj fs =>
    match List.lookup "@type" fs with
    | some (Json.str s) => some s
    | _ => none
  | _ => none

theorem map_typeOf_faq_piece (post : BlogPost) :
    (match generateFAQSchema post with
      | some faq => [withContext faq]
      | none => ([] : List Json)).map typeOf =
    (if (post.aeoQuestions.getD []).length ≠ 0 then [some "FAQPage"] else []) := by
  rcases h : post.aeoQuestions with _ | qs
  · simp [generateFAQSchema, h]
  · by_cases hq : qs.length = 0
    · simp [generateFAQSchema, h, hq]
    · simp only [generateFAQSchema, h, hq, if_neg, ite_false, Option.getD_some]
      simp [hq, typeOf, withContext]
      rfl

theorem map_typeOf_howTo_piece (post : BlogPost) :
    (match generateHowToSchema post with
      | some howTo => [withContext howTo]
      | none => ([] : List Json)).map typeOf =
    (if post.isHowTo.getD false = true ∧ 3 ≤ (post.steps.getD []).length
      then [some "HowTo"] else []) := by
  rcases h : post.isHowTo with _ | how
  · simp [generateHowToSchema, h]
  · cases how with
    | false => simp [generateHowToSchema, h]
    | true =>
      rcases hs : post.steps with _ | st
      · simp [generateHowToSchema, h, hs]
      · by_cases hlen : st.length < 3
        · simp [generateHowToSchema, h, hs, hlen, Nat.not_le_of_lt hlen]
        · simp only [generateHowToSchema, h, hs, hlen, Option.getD_some]
          simp [Nat.le_of_not_lt hlen, typeOf, withContext]
          rfl

theorem map_typeOf_service_piece (post : BlogPost) :
    (match generateServiceSchema post with
      | some service => [withContext service]
      | none => ([] : List Json)).map typeOf =
    (if post.commercialIntent.getD false = true then [some "Service"] else []) := by
  rcases h : post.commercialIntent with _ | ci
  · simp [generateServiceSchema, h]
  · cases ci with
    | false => simp [generateServiceSchema, h]
    | true =>
      simp [generateServiceSchema, h, typeOf, withContext]
      rfl

/-- C4: the aggregator always emits BlogPosting, Organization and
BreadcrumbList as the first three fragments, then FAQPage iff
`aeoQuestions` is non-empty, then HowTo iff `isHowTo` holds with at
least 3 steps, then Service iff `commercialIntent` holds. A post with
`isHowTo` and only 2 steps, or with `commercialIntent` false, yields no
HowTo or Service fragment respectively, as the right-hand side's
conditions evaluate. -/
theorem aggregator_fragment_types (now : String) (post : BlogPost) :
    (aggregateSchemas now post).map typeOf =
      [some "BlogPosting", some "Organization", some "BreadcrumbList"]
      ++ (if (post.aeoQuestions.getD []).length ≠ 0 then [some "FAQPage"] else [])
      ++ (if post.isHowTo.getD false = true ∧ 3 ≤ (post.steps.getD []).length
          then [some "HowTo"] else [])
      ++ (if post.commercialIntent.getD false = true then [some "Service"] else []) := by
  have hbase :
      [withContext (generateBlogPostingSchema now post),
       withContext generateOrganizationSchema,
       withContext (generateBreadcrumbSchema post)].map typeOf =
      [some "BlogPosting", some "Organization", some "BreadcrumbList"] := rfl
  simp only [aggregateSchemas, List.map_append, hbase,
    map_typeOf_faq_piece, map_typeOf_howTo_piece, map_typeOf_service_piece]

/-- Drop the (top-level) `dateModified` field of a fragment. -/
def scrubDateModified (j : Json) : Json :=
  match j with
  | Json.obj fs => Json.obj (fs.filter (fun kv => kv.1 != "dateModified"))
  | j => j

theorem scrub_blogPosting_const (now1 now2 : String) (post : BlogPost) :
    scrubDateModified (withContext (generateBlogPostingSchema now1 post)) =
    scrubDateModified (withContext (generateBlogPostingSchema now2 post)) := rfl

/-- C8: two aggregator runs over the same post differ at most in the
BlogPosting fragment's `dateModified` field: with that field dropped
the fragment lists are equal, and the fragments after the first are
equal outright. -/
theorem aggregator_idempotent_up_to_dateModified (post : BlogPost)
    (now1 now2 : String) :
    (aggregateSchemas now1 post).map scrubDateModified =
      (aggregateSchemas now2 post).map scrubDateModified ∧
    (aggregateSchemas now1 post).tail = (aggregateSchemas now2 post).tail := by
  constructor
  · simp only [aggregateSchemas, List.cons_append, List.nil_append,
      List.map_cons, List.map_append]
    rw [scrub_blogPosting_const now1 now2 post]
  · simp only [aggregateSchemas, List.cons_append, List.nil_append,
      List.tail_cons]

/-! ## Generation client (src/lib/geminiService.ts, `generateTopics`,
`generateCoverImage`, `generateAndPublishAutoPost`) -/

/-- A topic suggestion as produced by `generateTopics`. -/
structure GeneratedTopic where
  topic : String
  relevance : String
  content : String
  excerpt : String
  keywords : List String
  category : String
  readTime : String
  geoTargeting : String
  aeoQuestions : List QA
  seoScore : Nat
  coverImage : String
deriving DecidableEq

def defaultTopic : GeneratedTopic :=
  ⟨"", "", "", "", [], "", "", "", [], 0, ""⟩

/-- The provider's `GenerateContentResponse` as read by the service:
only `response.text`, possibly absent. -/
structure ProviderResponse where
  text : Option String
deriving DecidableEq

/-- What a call to `generateTopics` does: resolves with a topic list or
rejects with a message. -/
inductive TopicsResult where
  | ok (topics : List GeneratedTopic)
  | wrapped (msg : String)
deriving DecidableEq

/-- The fixed user-facing message `generateTopics` throws in place of
any transport or parse error. -/
def topicsErrorMessage : String :=
  "Failed to generate topics. Please check your API key or try again later."

/-- `generateTopics`: call the provider through the retry policy
(3 retries, 2000 ms); an empty or absent response text yields `[]`;
otherwise `JSON.parse` the text (`parse`, `none` = parse throw) and
replace each topic's cover image with a seeded picsum URL
(`encode` = `encodeURIComponent`, `rand i` = the random integer drawn
for the i-th topic). Any error caught is replaced by the fixed
wrapped message. -/
def generateTopics (provider : Nat → Outcome ProviderResponse)
    (parse : String → Option (List GeneratedTopic))
    (encode : String → String) (rand : Nat → Nat) : TopicsResult :=
  match (retryWithBackoff provider 3 2000 0).result with
  | Except.error _ => TopicsResult.wrapped topicsErrorMessage
  | Except.ok resp =>
    match resp.text with
    | none => TopicsResult.ok []
    | some text =>
      if text = "" then TopicsResult.ok []
      else
        match parse text with
        | none => TopicsResult.wrapped topicsErrorMessage
        | some topics =>
          TopicsResult.ok (topics.enum.map (fun p =>
            { p.2 with coverImage :=
                "https://picsum.photos/seed/" ++ (encode p.2.topic).take 10
                  ++ toString (rand p.1) ++ "/800/400" }))

/-- C5: `generateTopics` resolves with `[]` when the provider's
response text is absent or empty; it rejects with the fixed wrapped
message — not the provider's own error — when every provider call
fails, and likewise when the response text fails to parse. -/
theorem generateTopics_empty_and_failure_behaviour :
    (∀ (provider : Nat → Outcome ProviderResponse) parse encode rand resp,
      (retryWithBackoff provider 3 2000 0).result = Except.ok resp →
      (resp.text = none ∨ resp.text = some "") →
      generateTopics provider parse encode rand = TopicsResult.ok []) ∧
    (∀ (provider : Nat → Outcome ProviderResponse) parse encode rand,
      (∀ i, ∃ e, provider i = Outcome.err e) →
      generateTopics provider parse encode rand =
        TopicsResult.wrapped topicsErrorMessage) ∧
    (∀ (provider : Nat → Outcome ProviderResponse) parse encode rand resp text,
      (retryWithBackoff provider 3 2000 0).result = Except.ok resp →
      resp.text = some text → text ≠ "" → parse text = none →
      generateTopics provider parse encode rand =
        TopicsResult.wrapped topicsErrorMessage) := by
  refine ⟨?_, ?_, ?_⟩
  · intro provider parse encode rand resp hok htext
    rcases htext with h | h <;> simp [generateTopics, hok, h]
  · intro provider parse encode rand hfail
    obtain ⟨e, he⟩ := retryWithBackoff_all_err provider 3 2000 0 hfail
    simp [generateTopics, he]
  · intro provider parse encode rand resp text hok htext hne hparse
    simp [generateTopics, hok, htext, hne, hparse]

/-- A concrete run for C5: a provider succeeding with empty text gives
`[]`; one failing every call gives the fixed wrapped message; one whose
text does not parse gives the fixed wrapped message. -/
theorem generateTopics_empty_and_failure_behaviour_witness :
    generateTopics (fun _ => Outcome.ok ⟨some ""⟩) (fun _ => none) id (fun _ => 0) =
      TopicsResult.ok [] ∧
    generateTopics (fun _ => Outcome.err ⟨some 503, none, none, none⟩)
        (fun _ => none) id (fun _ => 0) =
      TopicsResult.wrapped topicsErrorMessage ∧
    generateTopics (fun _ => Outcome.ok ⟨some "not json"⟩) (fun _ => none) id (fun _ => 0) =
      TopicsResult.wrapped topicsErrorMessage := by
  refine ⟨?_, ?_, ?_⟩
  · exact generateTopics_empty_and_failure_behaviour.1
      (fun _ => Outcome.ok ⟨some ""⟩) (fun _ => none) id (fun _ => 0)
      ⟨some ""⟩ rfl (Or.inr rfl)
  · exact generateTopics_empty_and_failure_behaviour.2.1
      (fun _ => Outcome.err ⟨some 503, none, none, none⟩) (fun _ => none) id (fun _ => 0)
      (fun _ => ⟨⟨some 503, none, none, none⟩, rfl⟩)
  · exact generateTopics_empty_and_failure_behaviour.2.2
      (fun _ => Outcome.ok ⟨some "not json"⟩) (fun _ => none) id (fun _ => 0)
      ⟨some "not json"⟩ "not json" rfl rfl (by decide) rfl

/-- `generateCoverImage(prompt, isRawPrompt)`: pure URL construction
against pollinations.ai; `encode` = `encodeURIComponent`, `seed` = the
drawn `Math.floor(Math.random() * 1000000)`. The source performs no
network call and nothing in it can throw. -/
def generateCoverImage (encode : String → String) (prompt : String)
    (isRawPrompt : Bool) (seed : Nat) : String :=
  let finalPrompt :=
    if isRawPrompt then encode (prompt.take 200)
    else encode ("High-quality cinematic blog header image for: "
      ++ prompt.take 100 ++ ", vivid colors, detailed, professional photography")
  "https://image.pollinations.ai/prompt/" ++ finalPrompt
    ++ "?width=1000&height=500&nologo=true&seed=" ++ toString seed

/-- JavaScript `\w`: ASCII letters, digits and underscore. -/
def isWordChar (c : Char) : Bool :=
  c.isAlpha || c.isDigit || c == '_'

/-- Strip leading and trailing dashes (`.replace(/^-+|-+$/g, '')`). -/
def trimDashes (l : List Char) : List Char :=
  ((l.dropWhile (fun c => c == '-')).reverse.dropWhile (fun c => c == '-')).reverse

/-- The orchestrator's slug derivation:
`.toLowerCase().replace(/[^\w\s-]/g, '').replace(/[\s_-]+/g, '-')
.replace(/^-+|-+$/g, '')`. -/
def slugify (s : String) : String :=
  let lowered := s.data.map Char.toLower
  let kept := lowered.filter (fun c => isWordChar c || isSpaceChar c || c == '-')
  let dashed := squashRuns (fun c => isSpaceChar c || c == '_' || c == '-') '-' kept
  String.mk (trimDashes dashed)

/-- The result of `generateFullPost` as consumed by the orchestrator: a
`Partial<BlogPost>`, every field possibly absent. -/
structure PartialPost where
  title : Option String
  content : Option String
  excerpt : Option String
  keywords : Option (List String)
  category : Option String
  readTime : Option String
  geoTargeting : Option String
  aeoQuestions : Option (List QA)
  seoScore : Option Nat
  commercialIntent : Option Bool
  isHowTo : Option Bool
  steps : Option (List String)
deriving DecidableEq

/-- JavaScript `o || d` for an optional string: `d` when `o` is absent
or empty (falsy). -/
def jsOrStr (o : Option String) (d : String) : String :=
  match o with
  | some s => if s = "" then d else s
  | none => d

/-- JavaScript `o || d` for an optional number: `d` when `o` is absent
or `0` (falsy). -/
def jsOrNat (o : Option Nat) (d : Nat) : Nat :=
  match o with
  | some n => if n = 0 then d else n
  | none => d

/-- `generateAndPublishAutoPost(niche)`, with the results of its two
generation calls passed in (`topics` from `generateTopics`, `content`
from `generateFullPost`, both already resolved — each of those calls
rejecting would reject the whole flow before this logic runs).
`randIdx` is `Math.floor(Math.random() * topics.length)`, `seed` the
image seed, `nowMs` = `Date.now()`, `nowStr` =
`new Date().toLocaleString()`, `nowIso` the aggregator's timestamp.
`generateCoverImage` is total, so the source's `catch` branch that
substitutes a picsum placeholder has no reachable counterpart. -/
def generateAndPublishAutoPost (encode : String → String)
    (stringify : Json → String) (topics : List GeneratedTopic)
    (content : PartialPost) (randIdx seed nowMs : Nat)
    (nowStr nowIso : String) : Except String BlogPost :=
  if topics.length = 0 then Except.error "Failed to auto-generate topics"
  else
    let randomTopic := topics.getD randIdx defaultTopic
    let coverImage := generateCoverImage encode randomTopic.topic false seed
    let basePost : BlogPost := {
      id := toString nowMs,
      title := jsOrStr content.title randomTopic.topic,
      content := jsOrStr content.content "",
      excerpt := jsOrStr content.excerpt "",
      keywords := content.keywords.getD [],
      category := jsOrStr content.category "Auto-Generated",
      readTime := jsOrStr content.readTime "3 min read",
      dateCreated := nowStr,
      status := "published",
      geoTargeting := jsOrStr content.geoTargeting "Global",
      aeoQuestions := some (content.aeoQuestions.getD []),
      seoScore := jsOrNat content.seoScore 85,
      commercialIntent := content.commercialIntent,
      isHowTo := content.isHowTo,
      steps := content.steps,
      slug := slugify (jsOrStr content.title randomTopic.topic),
      coverImage := coverImage,
      scheduledDate := none }
    Except.ok { basePost with
      content := basePost.content ++ "\n\n"
        ++ getCombinedSchemaHtml stringify nowIso basePost }

/-- A `Partial<BlogPost>` with every field absent. -/
def emptyPartialPost : PartialPost :=
  ⟨none, none, none, none, none, none, none, none, none, none, none, none⟩

/-- C6: the orchestrator throws on zero topics; otherwise every absent
optional AI field gets its fixed default (category "Auto-Generated",
read time "3 min read", geo targeting "Global", SEO score 85, empty
keyword and FAQ lists), the slug is derived from the title, and the
aggregator's markup is appended to the content body. -/
theorem autoPublish_defaults_and_assembly (encode : String → String)
    (stringify : Json → String) (topics : List GeneratedTopic)
    (content : PartialPost) (randIdx seed nowMs : Nat)
    (nowStr nowIso : String) :
    (topics = [] →
      generateAndPublishAutoPost encode stringify topics content
          randIdx seed nowMs nowStr nowIso =
        Except.error "Failed to auto-generate topics") ∧
    (topics ≠ [] →
      content.category = none → content.readTime = none →
      content.geoTargeting = none → content.seoScore = none →
      content.keywords = none → content.aeoQuestions = none →
      ∃ p, generateAndPublishAutoPost encode stringify topics content
            randIdx seed nowMs nowStr nowIso = Except.ok p ∧
        p.category = "Auto-Generated" ∧
        p.readTime = "3 min read" ∧
        p.geoTargeting = "Global" ∧
        p.seoScore = 85 ∧
        p.keywords = [] ∧
        p.aeoQuestions = some [] ∧
        p.slug = slugify p.title ∧
        p.content = jsOrStr content.content "" ++ "\n\n"
          ++ getCombinedSchemaHtml stringify nowIso
              { p with content := jsOrStr content.content "" }) := by
  constructor
  · intro h
    simp [generateAndPublishAutoPost, h]
  · intro hne hcat hrt hgeo hseo hkw haeo
    have hlen : ¬ topics.length = 0 := by
      simpa [List.length_eq_zero] using hne
    simp only [generateAndPublishAutoPost, if_neg hlen]
    refine ⟨_, rfl, ?_, ?_, ?_, ?_, ?_, ?_, ?_, ?_⟩
    · simp [hcat, jsOrStr]
    · simp [hrt, jsOrStr]
    · simp [hgeo, jsOrStr]
    · simp [hseo, jsOrNat]
    · simp [hkw]
    · simp [haeo]
    · rfl
    · rfl

/-- A concrete run for C6: with no topics the orchestrator throws; with
one topic and an entirely absent `Partial<BlogPost>` every default is
applied. -/
theorem autoPublish_defaults_and_assembly_witness :
    (generateAndPublishAutoPost id (fun _ => "") [] emptyPartialPost
        0 7 0 "now" "iso" = Except.error "Failed to auto-generate topics") ∧
    (∃ p, generateAndPublishAutoPost id (fun _ => "") [defaultTopic]
          emptyPartialPost 0 7 0 "now" "iso" = Except.ok p ∧
      p.category = "Auto-Generated" ∧
      p.readTime = "3 min read" ∧
      p.geoTargeting = "Global" ∧
      p.seoScore = 85 ∧
      p.keywords = [] ∧
      p.aeoQuestions = some [] ∧
      p.slug = slugify p.title ∧
      p.content = jsOrStr emptyPartialPost.content "" ++ "\n\n"
        ++ getCombinedSchemaHtml (fun _ => "") "iso"
            { p with content := jsOrStr emptyPartialPost.content "" }) := by
  constructor
  · exact (autoPublish_defaults_and_assembly id (fun _ => "") [] emptyPartialPost
      0 7 0 "now" "iso").1 rfl
  · exact (autoPublish_defaults_and_assembly id (fun _ => "") [defaultTopic]
      emptyPartialPost 0 7 0 "now" "iso").2
      (List.cons_ne_nil _ _) rfl rfl rfl rfl rfl rfl

/-- C10: the assembled post's cover image is exactly the constructed
pollinations.ai URL — `generateCoverImage` is pure URL construction and
cannot fail, so the orchestrator's picsum `catch` branch is dead — and
every URL it constructs has the pollinations prefix with width 1000,
height 500 and the drawn seed. -/
theorem autoPublish_coverImage_pollinations (encode : String → String)
    (stringify : Json → String) (topics : List GeneratedTopic)
    (content : PartialPost) (randIdx seed nowMs : Nat)
    (nowStr nowIso : String) :
    (∀ p, generateAndPublishAutoPost encode stringify topics content
          randIdx seed nowMs nowStr nowIso = Except.ok p →
      p.coverImage =
        generateCoverImage encode (topics.getD randIdx defaultTopic).topic
          false seed) ∧
    (∀ (e : String → String) (pr : String) (b : Bool) (s : Nat),
      ∃ rest, generateCoverImage e pr b s =
        "https://image.pollinations.ai/prompt/" ++ rest
          ++ "?width=1000&height=500&nologo=true&seed=" ++ toString s) := by
  constructor
  · intro p hp
    by_cases hlen : topics.length = 0
    · simp [generateAndPublishAutoPost, hlen] at hp
    · simp only [generateAndPublishAutoPost, if_neg hlen] at hp
      cases hp
      rfl
  · intro e pr b s
    exact ⟨_, rfl⟩

/-- A concrete run for C10: the assembled post's cover image is the
pollinations.ai URL for the selected topic and seed. -/
theorem autoPublish_coverImage_pollinations_witness :
    ∃ p, generateAndPublishAutoPost id (fun _ => "") [defaultTopic]
        emptyPartialPost 0 7 0 "now" "iso" = Except.ok p ∧
      p.coverImage = generateCoverImage id defaultTopic.topic false 7 := by
  refine ⟨_, rfl, ?_⟩
  exact (autoPublish_coverImage_pollinations id (fun _ => "") [defaultTopic]
    emptyPartialPost 0 7 0 "now" "iso").1 _ rfl

/-! ## Image acquisition pipeline (src/app/actions/gemini.ts,
`generateAndStoreCoverImage`) -/

/-- The `{ success, url?, error? }` record the server action returns. -/
structure StoreResult where
  success : Bool
  url : Option String
  error : Option String
deriving DecidableEq

/-- The image fetch's response as inspected: `ok`, `status` and the
payload's `byteLength`. -/
structure FetchResp where
  ok : Bool
  status : Nat
  byteLength : Nat
deriving DecidableEq

/-- One image fetch: a thrown failure (network error or the 15 s
abort) or a response. -/
inductive FetchOut where
  | threw (msg : String)
  | resp (r : FetchResp)
deriving DecidableEq

/-- The storage upload's JSON body `{ success, url?, error? }`. -/
structure UploadBody where
  success : Bool
  url : Option String
  error : Option String
deriving DecidableEq

/-- The storage upload's HTTP response. -/
structure UploadResp where
  ok : Bool
  status : Nat
  text : String
  body : UploadBody
deriving DecidableEq

/-- One storage upload: thrown failure or response. -/
inductive UploadOut where
  | threw (msg : String)
  | resp (r : UploadResp)
deriving DecidableEq

/-- JavaScript truthiness of an optional string (absent or empty =
falsy). -/
def truthyOptStr (o : Option String) : Bool :=
  match o with
  | some s => s != ""
  | none => false

/-- The action's topic slug:
`.toLowerCase().replace(/[^a-z0-9]+/g, '-').replace(/(^-|-$)/g, '')
.substring(0, 50)`. After runs are squashed at most one dash can lead
or trail, so the single-dash trim is `trimDashes`. -/
def storageSlug (topic : String) : String :=
  let lowered := topic.data.map Char.toLower
  let dashed := squashRuns (fun c => !(c.isLower || c.isDigit)) '-' lowered
  (String.mk (trimDashes dashed)).take 50

/-- The generated upload filename `${slug || 'ai-image'}-${timestamp}.jpg`;
`nowSec` = `Math.floor(Date.now() / 1000)`. -/
def autoFilename (topic : String) (nowSec : Nat) : String :=
  let slug := storageSlug topic
  (if slug = "" then "ai-image" else slug) ++ "-" ++ toString nowSec ++ ".jpg"

/-- `let filename = customFilename; if (!filename) { … }`. -/
def uploadFilename (topic : String) (customFilename : Option String)
    (nowSec : Nat) : String :=
  match customFilename with
  | some f => if f = "" then autoFilename topic nowSec else f
  | none => autoFilename topic nowSec

/-- The action's environment: the two configuration variables and the
external effects, indexed by attempt number. -/
structure StoreEnv where
  apiKey : Option String
  apiUrl : Option String
  fetchImage : Nat → String → FetchOut
  upload : Nat → String → UploadOut
  seed : Nat → Nat
  encode : String → String
  nowSec : Nat
  lockRand : Nat

/-- How one loop iteration ends: an early `return` out of the action,
or an error caught by the iteration's `catch` (carrying its message,
the next `lastError`). -/
inductive AttemptOut where
  | ret (r : StoreResult)
  | fail (msg : String)
deriving DecidableEq

/-- One iteration of the action's `for` loop: build the image URL
(pure), check the storage configuration, fetch the image (rejecting a
non-ok response or a payload under 1000 bytes), upload, and interpret
the upload response. -/
def attemptOnce (env : StoreEnv) (topic : String) (isRawPrompt : Bool)
    (customFilename : Option String) (i : Nat) : AttemptOut :=
  let imageUrl := generateCoverImage env.encode topic isRawPrompt (env.seed i)
  if !truthyOptStr env.apiKey || !truthyOptStr env.apiUrl then
    AttemptOut.ret ⟨false, none, some "Remote storage configuration missing"⟩
  else
    match env.fetchImage i imageUrl with
    | FetchOut.threw m => AttemptOut.fail m
    | FetchOut.resp r =>
      if r.ok = false then
        AttemptOut.fail ("AI Provider responded with " ++ toString r.status)
      else if r.byteLength < 1000 then
        AttemptOut.fail "Received invalid or too small image data"
      else
        match env.upload i (uploadFilename topic customFilename env.nowSec) with
        | UploadOut.threw m => AttemptOut.fail m
        | UploadOut.resp u =>
          if u.ok = false then
            AttemptOut.fail ("Storage upload failed: " ++ toString u.status
              ++ " " ++ u.text)
          else if u.body.success then AttemptOut.ret ⟨true, u.body.url, none⟩
          else AttemptOut.fail ((u.body.error).getD "Upload failed")

/-- The `for (let i = 0; i <= maxRetries; i++)` loop: run attempts from
index `i` while `n` remain, threading `lastError`; yields either the
early return or the final `lastError`, paired with the number of
attempts executed. -/
def runAttempts (env : StoreEnv) (topic : String) (isRawPrompt : Bool)
    (customFilename : Option String) :
    Nat → Nat → String → (Sum StoreResult String) × Nat
  | _, 0, lastError => (Sum.inr lastError, 0)
  | i, n + 1, _lastError =>
    match attemptOnce env topic isRawPrompt customFilename i with
    | AttemptOut.ret r => (Sum.inl r, 1)
    | AttemptOut.fail m =>
      let rest := runAttempts env topic isRawPrompt customFilename (i + 1) n m
      (rest.1, rest.2 + 1)

/-- `const maxRetries = 2`. -/
def maxRetries : Nat := 2

/-- The ultimate fallback URL: loremflickr on the comma-joined first
three words of the topic (`topic.split(' ').slice(0, 3).join(',')`),
with `lockRand` = `Math.floor(Math.random() * 1000)`. -/
def fallbackUrl (encode : String → String) (topic : String)
    (lockRand : Nat) : String :=
  let keywords := String.intercalate "," ((topic.splitOn " ").take 3)
  "https://loremflickr.com/800/400/" ++ encode keywords ++ "?lock="
    ++ toString lockRand

/-- `generateAndStoreCoverImage(topic, isRawPrompt, customFilename)`:
the retry loop, then — if every attempt failed — the stock-photo
fallback marked successful with a descriptive error note. Returns the
result paired with the number of loop iterations run. -/
def generateAndStoreCoverImage (env : StoreEnv) (topic : String)
    (isRawPrompt : Bool) (customFilename : Option String) :
    StoreResult × Nat :=
  match runAttempts env topic isRawPrompt customFilename 0 (maxRetries + 1) "" with
  | (Sum.inl r, c) => (r, c)
  | (Sum.inr lastError, c) =>
    (⟨true, some (fallbackUrl env.encode topic env.lockRand),
      some ("AI generation failed (" ++ lastError ++ "), using relevant fallback.")⟩,
     c)

/-- With the configuration present, an early `return` out of the loop
is always the upload-success result: its `success` flag is true. -/
theorem attemptOnce_config_present_success (env : StoreEnv)
    (topic : String) (isRawPrompt : Bool) (customFilename : Option String)
    (i : Nat) (r : StoreResult)
    (hk : truthyOptStr env.apiKey = true) (hu : truthyOptStr env.apiUrl = true)
    (h : attemptOnce env topic isRawPrompt customFilename i = AttemptOut.ret r) :
    r.success = true := by
  simp only [attemptOnce, hk, hu, Bool.not_true, Bool.or_self, Bool.false_eq_true,
    if_false] at h
  rcases hf : env.fetchImage i (generateCoverImage env.encode topic isRawPrompt (env.seed i)) with m | fr
  · rw [hf] at h
    cases h
  · rw [hf] at h
    by_cases hok : fr.ok = false
    · simp [hok] at h
    · simp only [hok, if_false] at h
      by_cases hlen : fr.byteLength < 1000
      · simp [hlen] at h
      · simp only [hlen, if_false] at h
        rcases hup : env.upload i (uploadFilename topic customFilename env.nowSec) with m | ur
        · rw [hup] at h
          cases h
        · rw [hup] at h
          by_cases huok : ur.ok = false
          · simp [huok] at h
          · simp only [huok, if_false] at h
            by_cases hsucc : ur.body.success
            · simp only [hsucc, if_true] at h
              cases h
              rfl
            · simp [hsucc] at h

/-- C3: with the storage configuration present and every attempt
failing, the action runs exactly 3 attempts and returns success with
the loremflickr fallback URL and a non-empty error note naming the AI
failure; with the configuration missing it returns the structured
failure after the first iteration, for every fetch and upload effect —
no generation attempt influences it; and with the configuration
present it never returns `success = false` at all. -/
theorem storeCoverImage_fallback_and_config_failure (env : StoreEnv)
    (topic : String) (isRawPrompt : Bool) (customFilename : Option String) :
    (truthyOptStr env.apiKey = true → truthyOptStr env.apiUrl = true →
      (∀ i, ∃ m, attemptOnce env topic isRawPrompt customFilename i =
        AttemptOut.fail m) →
      ∃ lastError,
        generateAndStoreCoverImage env topic isRawPrompt customFilename =
          (⟨true, some (fallbackUrl env.encode topic env.lockRand),
            some ("AI generation failed (" ++ lastError
              ++ "), using relevant fallback.")⟩, 3) ∧
        ("AI generation failed (" ++ lastError ++ "), using relevant fallback.")
          ≠ "") ∧
    ((truthyOptStr env.apiKey = false ∨ truthyOptStr env.apiUrl = false) →
      ∀ (f : Nat → String → FetchOut) (u : Nat → String → UploadOut),
        generateAndStoreCoverImage
            { env with fetchImage := f, upload := u }
            topic isRawPrompt customFilename =
          (⟨false, none, some "Remote storage configuration missing"⟩, 1)) ∧
    (truthyOptStr env.apiKey = true → truthyOptStr env.apiUrl = true →
      ((generateAndStoreCoverImage env topic isRawPrompt customFilename).1).success
        = true) := by
  refine ⟨?_, ?_, ?_⟩
  · intro _ _ h
    obtain ⟨m0, h0⟩ := h 0
    obtain ⟨m1, h1⟩ := h 1
    obtain ⟨m2, h2⟩ := h 2
    refine ⟨m2, ?_, ?_⟩
    · simp [generateAndStoreCoverImage, maxRetries, runAttempts, h0, h1, h2]
    · intro hc
      have hl := congrArg String.length hc
      rw [String.length_append, String.length_append] at hl
      have ha : 0 < ("AI generation failed (").length := by decide
      have hb : ("" : String).length = 0 := rfl
      rw [hb] at hl
      omega
  · intro hconf f u
    rcases hconf with h | h <;>
      simp [generateAndStoreCoverImage, maxRetries, runAttempts, attemptOnce, h]
  · intro hk hu
    rcases h0 : attemptOnce env topic isRawPrompt customFilename 0 with r0 | m0
    · simpa [generateAndStoreCoverImage, maxRetries, runAttempts, h0] using
        attemptOnce_config_present_success env topic isRawPrompt customFilename 0 r0 hk hu h0
    · rcases h1 : attemptOnce env topic isRawPrompt customFilename 1 with r1 | m1
      · simpa [generateAndStoreCoverImage, maxRetries, runAttempts, h0, h1] using
          attemptOnce_config_present_success env topic isRawPrompt customFilename 1 r1 hk hu h1
      · rcases h2 : attemptOnce env topic isRawPrompt customFilename 2 with r2 | m2
        · simpa [generateAndStoreCoverImage, maxRetries, runAttempts, h0, h1, h2] using
            attemptOnce_config_present_success env topic isRawPrompt customFilename 2 r2 hk hu h2
        · simp [generateAndStoreCoverImage, maxRetries, runAttempts, h0, h1, h2]

/-- A concrete run for C3: a fetch that always throws exhausts the 3
attempts and yields the fallback; a missing API key yields the
structured failure in one iteration. -/
theorem storeCoverImage_fallback_and_config_failure_witness :
    (∃ lastError,
      generateAndStoreCoverImage
          ⟨some "k", some "u", fun _ _ => FetchOut.threw "boom",
           fun _ _ => UploadOut.threw "boom2", fun _ => 0, id, 0, 5⟩
          "cats and dogs forever" false none =
        (⟨true, some (fallbackUrl id "cats and dogs forever" 5),
          some ("AI generation failed (" ++ lastError
            ++ "), using relevant fallback.")⟩, 3) ∧
      ("AI generation failed (" ++ lastError ++ "), using relevant fallback.")
        ≠ "") ∧
    generateAndStoreCoverImage
        ⟨none, some "u", fun _ _ => FetchOut.threw "boom",
         fun _ _ => UploadOut.threw "boom2", fun _ => 0, id, 0, 5⟩
        "cats and dogs forever" false none =
      (⟨false, none, some "Remote storage configuration missing"⟩, 1) ∧
    ((generateAndStoreCoverImage
        ⟨some "k", some "u", fun _ _ => FetchOut.threw "boom",
         fun _ _ => UploadOut.threw "boom2", fun _ => 0, id, 0, 5⟩
        "cats and dogs forever" false none).1).success = true := by
  refine ⟨?_, ?_, ?_⟩
  · exact (storeCoverImage_fallback_and_config_failure
      ⟨some "k", some "u", fun _ _ => FetchOut.threw "boom",
       fun _ _ => UploadOut.threw "boom2", fun _ => 0, id, 0, 5⟩
      "cats and dogs forever" false none).1 rfl rfl
      (fun _ => ⟨"boom", rfl⟩)
  · exact (storeCoverImage_fallback_and_config_failure
      ⟨none, some "u", fun _ _ => FetchOut.threw "boom",
       fun _ _ => UploadOut.threw "boom2", fun _ => 0, id, 0, 5⟩
      "cats and dogs forever" false none).2.1 (Or.inl rfl)
      (fun _ _ => FetchOut.threw "boom") (fun _ _ => UploadOut.threw "boom2")
  · exact (storeCoverImage_fallback_and_config_failure
      ⟨some "k", some "u", fun _ _ => FetchOut.threw "boom",
       fun _ _ => UploadOut.threw "boom2", fun _ => 0, id, 0, 5⟩
      "cats and dogs forever" false none).2.2 rfl rfl

/-! ## Persistence contract (src/app/api/posts/route.ts)

The route writes JSON-encoded columns with the builtin `JSON.stringify`
and reads them back with `JSON.parse`; those builtins appear below as
the `stringify…`/`parse…` parameters (`parse… = none` models a
`JSON.parse` throw, which the route surfaces as a 500 response,
modelled as `none`). The `ORDER BY dateCreated DESC` clause runs inside
the external SQL engine and does not change any row's shape, so it is
not modelled. -/

/-- A row of the `posts` table as the POST handler stores it: JSON
columns hold strings (`aeoQuestions` is SQL NULL when the field was
absent, since `JSON.stringify(undefined)` is not a string), and the
boolean flags hold the integers 0/1. -/
structure PostRow where
  id : String
  slug : String
  title : String
  excerpt : String
  content : String
  keywords : String
  category : String
  dateCreated : String
  status : String
  readTime : String
  coverImage : String
  geoTargeting : String
  seoScore : Nat
  aeoQuestions : Option String
  commercialIntent : Nat
  isHowTo : Nat
  steps : String
  scheduledDate : Option String
deriving DecidableEq

/-- `post.scheduledDate || null`. -/
def jsOrNull (o : Option String) : Option String :=
  match o with
  | some s => if s = "" then none else some s
  | none => none

/-- The POST handler's VALUES tuple: `JSON.stringify` on `keywords`,
`aeoQuestions` and `steps || []`, and `? 1 : 0` on the flags. -/
def serializePost (stringifyList : List String → String)
    (stringifyQA : List QA → String) (post : BlogPost) : PostRow :=
  { id := post.id,
    slug := post.slug,
    title := post.title,
    excerpt := post.excerpt,
    content := post.content,
    keywords := stringifyList post.keywords,
    category := post.category,
    dateCreated := post.dateCreated,
    status := post.status,
    readTime := post.readTime,
    coverImage := post.coverImage,
    geoTargeting := post.geoTargeting,
    seoScore := post.seoScore,
    aeoQuestions := post.aeoQuestions.map stringifyQA,
    commercialIntent := if post.commercialIntent.getD false then 1 else 0,
    isHowTo := if post.isHowTo.getD false then 1 else 0,
    steps := stringifyList (post.steps.getD []),
    scheduledDate := jsOrNull post.scheduledDate }

/-- `INSERT … ON DUPLICATE KEY UPDATE`: replace the row with the same
id (the update list names neither `id` nor `dateCreated`), otherwise
append. -/
def upsertPost (db : List PostRow) (r : PostRow) : List PostRow :=
  if db.any (fun x => x.id == r.id) then
    db.map (fun x => if x.id == r.id then { r with dateCreated := x.dateCreated } else x)
  else db ++ [r]

/-- A post as the GET handler returns it: arrays and objects
deserialized, flags coerced with `Boolean(…)`. -/
structure FetchedPost where
  id : String
  slug : String
  title : String
  excerpt : String
  content : String
  keywords : List String
  category : String
  dateCreated : String
  status : String
  readTime : String
  coverImage : String
  geoTargeting : String
  seoScore : Nat
  aeoQuestions : List QA
  commercialIntent : Bool
  isHowTo : Bool
  steps : List String
  scheduledDate : Option String
deriving DecidableEq

/-- The GET handler's per-row mapping:
`keywords: post.keywords ? JSON.parse(post.keywords) : []`,
`aeoQuestions: typeof … === 'string' ? JSON.parse(…) : (… || [])`,
`steps: post.steps ? JSON.parse(post.steps) : []`,
`commercialIntent: Boolean(…)`, `isHowTo: Boolean(…)`. -/
def deserializeRow (parseList : String → Option (List String))
    (parseQA : String → Option (List QA)) (r : PostRow) : Option FetchedPost := do
  let kw ← if r.keywords = "" then some [] else parseList r.keywords
  let aeo ← match r.aeoQuestions with
    | some s => parseQA s
    | none => some []
  let st ← if r.steps = "" then some [] else parseList r.steps
  pure { id := r.id
         slug := r.slug
         title := r.title
         excerpt := r.excerpt
         content := r.content
         keywords := kw
         category := r.category
         dateCreated := r.dateCreated
         status := r.status
         readTime := r.readTime
         coverImage := r.coverImage
         geoTargeting := r.geoTargeting
         seoScore := r.seoScore
         aeoQuestions := aeo
         commercialIntent := r.commercialIntent != 0
         isHowTo := r.isHowTo != 0
         steps := st
         scheduledDate := r.scheduledDate }

/-- The GET handler over the whole table: every row is mapped; a single
parse failure fails the whole response (the route's 500). -/
def getPosts (parseList : String → Option (List String))
    (parseQA : String → Option (List QA)) : List PostRow →
    Option (List FetchedPost)
  | [] => some []
  | r :: rest =>
    match deserializeRow parseList parseQA r, getPosts parseList parseQA rest with
    | some p, some ps => some (p :: ps)
    | _, _ => none

/-- C7: a post saved through the upsert contract and re-fetched through
the list contract comes back with `keywords`, `aeoQuestions` and
`steps` in their original array/object shapes and with both flags as
booleans equal to the originals, assuming the builtin JSON round-trip
(`parse (stringify x) = x`, and `stringify` of an array is never the
empty string). -/
theorem posts_roundtrip (stringifyList : List String → String)
    (stringifyQA : List QA → String)
    (parseList : String → Option (List String))
    (parseQA : String → Option (List QA)) (post : BlogPost)
    (qas : List QA) (st : List String) (bc bh : Bool)
    (haeo : post.aeoQuestions = some qas)
    (hst : post.steps = some st)
    (hbc : post.commercialIntent = some bc)
    (hbh : post.isHowTo = some bh)
    (hk1 : stringifyList post.keywords ≠ "")
    (hk2 : parseList (stringifyList post.keywords) = some post.keywords)
    (ha2 : parseQA (stringifyQA qas) = some qas)
    (hs1 : stringifyList st ≠ "")
    (hs2 : parseList (stringifyList st) = some st) :
    getPosts parseList parseQA
        (upsertPost [] (serializePost stringifyList stringifyQA post)) =
      some [{ id := post.id
              slug := post.slug
              title := post.title
              excerpt := post.excerpt
              content := post.content
              keywords := post.keywords
              category := post.category
              dateCreated := post.dateCreated
              status := post.status
              readTime := post.readTime
              coverImage := post.coverImage
              geoTargeting := post.geoTargeting
              seoScore := post.seoScore
              aeoQuestions := qas
              commercialIntent := bc
              isHowTo := bh
              steps := st
              scheduledDate := jsOrNull post.scheduledDate }] := by
  cases bc <;> cases bh <;>
    simp [getPosts, upsertPost, deserializeRow, serializePost, haeo, hst, hbc,
      hbh, hk1, hk2, ha2, hs1, hs2]

/-- Structural stand-ins for the JSON builtins, used to run the
round-trip on a concrete post: lists serialize to newline-joined
entries behind a tag line. -/
def splitNl : List Char → List Char → List String
  | [], acc => [String.mk acc.reverse]
  | c :: cs, acc =>
    if c = '\n' then String.mk acc.reverse :: splitNl cs []
    else splitNl cs (c :: acc)

def demoStringifyList (l : List String) : String :=
  String.intercalate "\n" ("L" :: l)

def demoParseList (s : String) : Option (List String) :=
  match splitNl s.data [] with
  | "L" :: rest => some rest
  | _ => none

def demoStringifyQA (qs : List QA) : String :=
  String.intercalate "\n" ("Q" :: (qs.map (fun q => [q.question, q.answer])).flatten)

def pairUp : List String → Option (List QA)
  | [] => some []
  | q :: a :: rest => (pairUp rest).map (fun t => ⟨q, a⟩ :: t)
  | _ => none

def demoParseQA (s : String) : Option (List QA) :=
  match splitNl s.data [] with
  | "Q" :: rest => pairUp rest
  | _ => none

/-- A concrete saved post for C7. -/
def demoPost : BlogPost :=
  { id := "1", title := "T", content := "c", excerpt := "e",
    keywords := ["a", "b"], category := "General", readTime := "3 min read",
    dateCreated := "2025-01-01", status := "published", geoTargeting := "Global",
    aeoQuestions := some [⟨"q1", "a1"⟩], seoScore := 85,
    commercialIntent := some true, isHowTo := some false,
    steps := some ["s1"], slug := "t", coverImage := "img",
    scheduledDate := none }

/-- A concrete round trip for C7: the demo post's arrays and flags come
back in their original shapes. -/
theorem posts_roundtrip_witness :
    getPosts demoParseList demoParseQA
        (upsertPost [] (serializePost demoStringifyList demoStringifyQA demoPost)) =
      some [{ id := "1"
              slug := "t"
              title := "T"
              excerpt := "e"
              content := "c"
              keywords := ["a", "b"]
              category := "General"
              dateCreated := "2025-01-01"
              status := "published"
              readTime := "3 min read"
              coverImage := "img"
              geoTargeting := "Global"
              seoScore := 85
              aeoQuestions := [⟨"q1", "a1"⟩]
              commercialIntent := true
              isHowTo := false
              steps := ["s1"]
              scheduledDate := none }] := by
  exact posts_roundtrip demoStringifyList demoStringifyQA demoParseList
    demoParseQA demoPost [⟨"q1", "a1"⟩] ["s1"] true false rfl rfl rfl rfl
    (by decide) (by decide) (by decide) (by decide) (by decide)

end Aiblogs
